import Mathlib

/-!
Verification of the TORIS AI tool-augmented generation loop.

This file is a shallow embedding, in Lean 4, of the core subsystem of the
TORISAI repository: the call extractor and capability registry
(torisai/core/tool_protocol.py), the generation client
(torisai/core/ollama_client.py), the conversation store
(torisai/memory/manager.py) and the orchestrating agent
(Desktop/TORISAI-main/torisai/agents/base.py).

Python exceptions are modelled with `Except`; an exception value carries the
string that `str(e)` would produce.  Machine-level details that no modelled
code path inspects (wall-clock timestamps, metadata payloads, argument
values) are modelled as opaque strings or naturals.
-/

namespace Torisai

/-- A Python exception as observed by the modelled code: the constructor
records the class of the exception and the message `str(e)` returns. -/
inductive PyErr where
  | valueError (msg : String)
  | reError (msg : String)
  | generic (msg : String)
deriving DecidableEq

/-- The string `str(e)` produces for an exception `e`. -/
def PyErr.str : PyErr → String
  | .valueError m => m
  | .reError m => m
  | .generic m => m

/-- Mirrors `ToolCall` (tool_protocol.py): a structured tool invocation.
Argument values are never inspected by the modelled code, so they are
modelled as strings. -/
structure ToolCall where
  name : String
  args : List (String × String)
deriving DecidableEq

/-- The regex literal of `extract_tool_calls` (tool_protocol.py line 73). -/
def toolCallPattern : String := "\\\x7b(?:[^\x7b\x7d]|(?R))*\\\x7d"

/-- Extension characters accepted after `(?` by CPython's `sre_parse`
(group flavours `:`, `=`, `!`, `<`, `#`, `P`, `(` and inline flags). -/
def sreSupportedExt (c : Char) : Bool :=
  [':', '=', '!', '<', '#', 'P', '(', 'a', 'i', 'L', 'm', 's', 'u', 'x', '-'].contains c

/-- Scan of a pattern for an extension group `(?c` that CPython's
`sre_parse` rejects.  Returns the offending character and the position
(index of the `?`) reported in the `re.error` message.  Escaped characters
are skipped; character-class subtleties are not modelled (the pattern this
file cares about has no parenthesis inside a class). -/
def findUnknownExtension : List Char → Nat → Option (Char × Nat)
  | '\\' :: _ :: rest, i => findUnknownExtension rest (i + 2)
  | '(' :: '?' :: c :: rest, i =>
    if sreSupportedExt c then findUnknownExtension rest (i + 3)
    else some (c, i + 1)
  | _ :: rest, i => findUnknownExtension rest (i + 1)
  | [], _ => none

/-- Compiling a pattern with Python's `re` module: `none` when the pattern
compiles, otherwise the `re.error` raised, with the message CPython
produces (`unknown extension ?R at position 12` for this file's pattern). -/
def reCompileErr (pat : String) : Option PyErr :=
  (findUnknownExtension pat.toList 0).map fun p =>
    PyErr.reError ("unknown extension ?" ++ String.singleton p.1 ++ " at position " ++ toString p.2)

/-- Mirrors `extract_tool_calls` (tool_protocol.py lines 68-96) under the
standard-library `re` module: `re.findall` first compiles
`toolCallPattern`, and compilation raises `re.error` because `(?R)` is a
recursion extension `re` does not support, so the function raises on every
input before any matching or JSON parsing happens.  The success branch is
unreachable for this pattern (`toolCallPattern_compile_fails`); the
matching and parsing that would follow it are therefore not modelled. -/
def extract_tool_calls (text : String) : Except PyErr (List ToolCall) :=
  match reCompileErr toolCallPattern with
  | some e => .error e
  | none =>
    let _ := text
    .ok []

/-- Mirrors `ConversationEntry` (memory/manager.py): one exchange.  The
`time.time()` float is modelled as an opaque tick; metadata values as
strings. -/
structure ConversationEntry where
  user : String
  ai : String
  timestamp : Nat
  metadata : List (String × String) := []
deriving DecidableEq

/-- The observable states of the conversation-history file that
`get_conversation_history` distinguishes: absent, present but unreadable
(`open` raises), present but not valid JSON (`json.load` raises), or a
valid list of entries. -/
inductive FileState where
  | missing
  | unreadable
  | invalid
  | valid (entries : List ConversationEntry)
deriving DecidableEq

/-- Mirrors `MemoryManager.get_conversation_history` (memory/manager.py
lines 156-176): a missing file returns `[]`; a raising read or parse is
caught and returns `[]`; a valid file returns the Python slice
`history[-limit:]` when `limit > 0` and the whole list otherwise. -/
def get_conversation_history (st : FileState) (limit : Nat) : List ConversationEntry :=
  match st with
  | .valid history => if 0 < limit then history.drop (history.length - limit) else history
  | _ => []

/-- Mirrors `ToolDefinition` (tool_protocol.py): a registered capability.
The capability either returns a result string or raises (spec 6: each
collaborator is `name → args mapping → result string | error`). -/
structure ToolDefinition where
  name : String
  description : String
  parameters : List (String × String) := []
  function : List (String × String) → Except PyErr String
  requires_confirmation : Bool := false

/-- The `ToolRegistry._tools` dict: insertion-ordered mapping from tool
name to definition, with unique keys. -/
abbrev Registry := List (String × ToolDefinition)

/-- Membership test of a key in the `_tools` dict (`tool_def.name in
self._tools`). -/
def containsName : Registry → String → Bool
  | [], _ => false
  | p :: rest, name => p.1 == name || containsName rest name

/-- Dict assignment to an existing key: the entry keeps its position and
receives the new definition. -/
def overwrite : Registry → ToolDefinition → Registry
  | [], _ => []
  | p :: rest, d => (if p.1 = d.name then (d.name, d) else p) :: overwrite rest d

/-- Mirrors `ToolRegistry.register` (tool_protocol.py lines 32-37):
`self._tools[tool_def.name] = tool_def`, a dict upsert that keeps the
position of an existing key and appends a new one.  The boolean is the
duplicate-name warning that is logged when an existing entry is
overwritten. -/
def register (tools : Registry) (tool_def : ToolDefinition) : Registry × Bool :=
  if containsName tools tool_def.name then (overwrite tools tool_def, true)
  else (tools ++ [(tool_def.name, tool_def)], false)

/-- Mirrors `ToolRegistry.get` (tool_protocol.py lines 39-41):
`self._tools.get(name)`, the first-match dict lookup. -/
def get : Registry → String → Option ToolDefinition
  | [], _ => none
  | p :: rest, name => if p.1 = name then some p.2 else get rest name

/-- Mirrors `ToolRegistry.execute` (tool_protocol.py lines 54-66): an
unregistered name raises `ValueError("Unknown tool: <name>")`; otherwise
the capability runs and anything it raises is logged and re-raised
unchanged (`except Exception as e: ... raise`). -/
def execute (tools : Registry) (call : ToolCall) : Except PyErr String :=
  match get tools call.name with
  | none => .error (.valueError ("Unknown tool: " ++ call.name))
  | some tool => tool.function call.args

/-- Mirrors the tool-execution loop of `Agent.process_query`
(Desktop/TORISAI-main/torisai/agents/base.py lines 100-113): for each call
in order, `registry.get` is consulted; a `None` result skips the call with
no output (the `if tool:` guard); otherwise `registry.execute` runs and a
success appends `"Tool <name> result: <result>"` while a raised exception
is caught and appends `"Error executing tool <name>: <message>"`. -/
def processToolCalls (tools : Registry) : List ToolCall → List String
  | [] => []
  | call :: rest =>
    (match get tools call.name with
     | none => []
     | some _ =>
       match execute tools call with
       | .ok result => ["Tool " ++ call.name ++ " result: " ++ result]
       | .error e => ["Error executing tool " ++ call.name ++ ": " ++ e.str]) ++
      processToolCalls tools rest

/-- Mirrors `Agent._prepare_context` (base.py lines 125-141). -/
def prepare_context (history : List ConversationEntry) : String :=
  if history.isEmpty then ""
  else
    history.foldl
      (fun ctx entry => ctx ++ "User: " ++ entry.user ++ "\nAssistant: " ++ entry.ai ++ "\n\n")
      "Previous conversation:\n"

/-- The backend's behaviour on one `POST /api/generate` round trip: an
HTTP response (status, raw body text, and the parsed `response` field the
200-branch reads), or a raised transport error. -/
inductive GenOutcome where
  | resp (status : Nat) (text : String) (responseField : String)
  | transportError (msg : String)
deriving DecidableEq

/-- Mirrors `OllamaClient.generate` (ollama_client.py lines 74-124): a 200
response returns the `response` field; any other status returns the string
`"Error: Ollama API error: <status> - <text>"`; a raised transport error
is caught and returns `"Error: Error generating text: <message>"`.  Every
branch returns normally — the function never raises. -/
def ollamaGenerate (outcome : GenOutcome) : Except PyErr String :=
  match outcome with
  | .resp status text responseField =>
    if status = 200 then .ok responseField
    else .ok ("Error: Ollama API error: " ++ toString status ++ " - " ++ text)
  | .transportError msg => .ok ("Error: Error generating text: " ++ msg)

/-- The observable effects of one non-streaming `Agent.process_query`
cycle: the prompt assembled for the backend, the `(user, ai)` pairs
appended to the conversation store by `save_interaction`, and the string
returned to the caller. -/
structure PQResult where
  prompt : String
  saved : List (String × String)
  answer : String
deriving DecidableEq

/-- Mirrors the non-streaming path of `Agent.process_query` (base.py lines
86-123): load `recent(5)` context, build the prompt, generate, then
`save_interaction(query, response)` runs BEFORE tool extraction and
execution; tool results, when any, are appended only to the returned
string.  Any exception inside the body (in particular the `re.error` that
`extract_tool_calls` raises) is caught by the outer handler, which returns
`"Error: Error processing query: <message>"`. -/
def process_query (tools : Registry) (store : FileState) (outcome : GenOutcome)
    (query : String) : PQResult :=
  let history := get_conversation_history store 5
  let context := prepare_context history
  let full_prompt := context ++ "\n\nUser: " ++ query
  match ollamaGenerate outcome with
  | .error e => ⟨full_prompt, [], "Error: Error processing query: " ++ e.str⟩
  | .ok response =>
    match extract_tool_calls response with
    | .error e => ⟨full_prompt, [(query, response)], "Error: Error processing query: " ++ e.str⟩
    | .ok tool_calls =>
      let tool_results := processToolCalls tools tool_calls
      let answer :=
        if tool_calls.isEmpty then response
        else if tool_results.isEmpty then response
        else response ++ "\n\n" ++ String.intercalate "\n" tool_results
      ⟨full_prompt, [(query, response)], answer⟩

/-- The shared state seen by two concurrent `save_interaction` calls: the
persisted history file, plus each call's locally loaded copy of it. -/
structure StoreState where
  file : List ConversationEntry
  loaded1 : List ConversationEntry
  loaded2 : List ConversationEntry
deriving DecidableEq

/-- The atomic file operations of `MemoryManager.save_interaction`
(memory/manager.py lines 102-154) for two concurrent callers: caller `i`
first loads the whole history (`get_conversation_history(limit=0)`), then
writes back its loaded copy plus its own entry (`json.dump(history, f)`
after `history.append(entry)`).  The function takes no lock, so any
interleaving of these operations is possible. -/
inductive AppendOp where
  | read1
  | write1
  | read2
  | write2
deriving DecidableEq

/-- One atomic step of a concurrent `save_interaction` pair: caller 1
appends `e1`, caller 2 appends `e2`.  Each write replaces the file with
the writer's loaded copy plus its own entry, exactly as `json.dump` of the
locally extended list does. -/
def stepOp (e1 e2 : ConversationEntry) (s : StoreState) : AppendOp → StoreState
  | .read1 => { s with loaded1 := s.file }
  | .write1 => { s with file := s.loaded1 ++ [e1] }
  | .read2 => { s with loaded2 := s.file }
  | .write2 => { s with file := s.loaded2 ++ [e2] }

/-- Run an interleaving of the two appends from an initial file content
and return the final persisted history. -/
def runAppends (e1 e2 : ConversationEntry) (init : List ConversationEntry)
    (ops : List AppendOp) : List ConversationEntry :=
  (ops.foldl (stepOp e1 e2) ⟨init, [], []⟩).file

/-- A concrete first registration of `web_search` (witness data). -/
def toolA : ToolDefinition :=
  ⟨"web_search", "first definition", [], fun _ => .ok "r1", false⟩

/-- A concrete second registration of `web_search` (witness data). -/
def toolA2 : ToolDefinition :=
  ⟨"web_search", "second definition", [], fun _ => .ok "r2", false⟩

/-- A registered capability that raises `RuntimeError("boom")` (witness
data for the error-propagation paths). -/
def badTool : ToolDefinition :=
  ⟨"bad", "always raises", [], fun _ => .error (.generic "boom"), false⟩

/-- A registered capability that succeeds (witness data). -/
def goodTool : ToolDefinition :=
  ⟨"good", "always succeeds", [], fun _ => .ok "fine", false⟩

/-- A concrete registry holding `bad` and `good` (witness data). -/
def regBad : Registry := [("bad", badTool), ("good", goodTool)]

/-- A concrete model draft that contains one well-formed tool-call
substring (witness data). -/
def draftWit : String := "I will search. \x7b\"name\": \"web_search\", \"args\": \x7b\x7d\x7d"

/-- The spec's Scenario A input: prose followed by one well-formed
tool-call substring. -/
def scenarioA : String :=
  "I need to search. \x7b\"name\": \"web_search\", \"args\": \x7b\"query\": \"rust ownership\"\x7d\x7d"

/-- A concrete three-entry history (witness data). -/
def histWit : List ConversationEntry :=
  [⟨"u1", "a1", 1, []⟩, ⟨"u2", "a2", 2, []⟩, ⟨"u3", "a3", 3, []⟩]

/-- A concrete conversation entry for the first concurrent writer. -/
def entry1 : ConversationEntry := ⟨"u1", "a1", 1, []⟩

/-- A concrete conversation entry for the second concurrent writer. -/
def entry2 : ConversationEntry := ⟨"u2", "a2", 2, []⟩

/-! ## Supporting lemmas -/

/-- The extractor's pattern is rejected by `re` with CPython's exact
message: `(?R)` is an unknown extension.  This makes the success branch of
`extract_tool_calls` unreachable. -/
theorem toolCallPattern_compile_fails :
    reCompileErr toolCallPattern =
      some (PyErr.reError "unknown extension ?R at position 12") := by
  rfl

/-- Under the standard `re` module, `extract_tool_calls` raises on every
input: `re.findall` fails while compiling the pattern, before looking at
the text. -/
theorem extract_tool_calls_raises (text : String) :
    extract_tool_calls text =
      .error (PyErr.reError "unknown extension ?R at position 12") := by
  rfl

/-- The generation client never raises: every outcome maps to a normally
returned string. -/
theorem ollamaGenerate_isOk (outcome : GenOutcome) :
    ∃ s, ollamaGenerate outcome = .ok s := by
  cases outcome with
  | resp status text responseField =>
    by_cases h : status = 200 <;> simp [ollamaGenerate, h]
  | transportError msg => exact ⟨_, rfl⟩

/-- Overwriting the entries keyed `d.name` leaves lookup at every other
name unchanged. -/
theorem get_overwrite_other (tools : Registry) (d : ToolDefinition) (name : String)
    (h : name ≠ d.name) :
    get (overwrite tools d) name = get tools name := by
  induction tools with
  | nil => rfl
  | cons p rest ih =>
    by_cases hd : p.1 = d.name
    · simp [overwrite, get, hd, Ne.symm h, ih]
    · simp only [overwrite, hd, if_false, get]
      by_cases hn : p.1 = name <;> simp [hn, ih]

/-- Overwriting with `d` makes lookup at `d.name` return `d`, provided
the key was present. -/
theorem get_overwrite_self (tools : Registry) (d : ToolDefinition)
    (h : containsName tools d.name = true) :
    get (overwrite tools d) d.name = some d := by
  induction tools with
  | nil => simp [containsName] at h
  | cons p rest ih =>
    by_cases hd : p.1 = d.name
    · simp [overwrite, get, hd]
    · have hrest : containsName rest d.name = true := by
        have hb : (p.1 == d.name) = false := by simp [hd]
        simpa [containsName, hb] using h
      simp [overwrite, get, hd, ih hrest]

/-- An absent key looks up to `none`. -/
theorem get_eq_none_of_not_contains (tools : Registry) (name : String)
    (h : containsName tools name = false) :
    get tools name = none := by
  induction tools with
  | nil => rfl
  | cons p rest ih =>
    have hb : (p.1 == name) = false := by
      cases hpb : (p.1 == name) with
      | false => rfl
      | true => simp [containsName, hpb] at h
    have hrest : containsName rest name = false := by simpa [containsName, hb] using h
    have hp : p.1 ≠ name := by simpa using hb
    simp [get, hp, ih hrest]

/-- A present key looks up to something. -/
theorem contains_of_get_some (tools : Registry) (name : String) (d : ToolDefinition)
    (h : get tools name = some d) :
    containsName tools name = true := by
  induction tools with
  | nil => simp [get] at h
  | cons p rest ih =>
    by_cases hp : p.1 = name
    · simp [containsName, hp]
    · simp only [get, hp, if_false] at h
      simp [containsName, ih h]

/-- Lookup distributes over dict concatenation, first list first. -/
theorem get_append (l₁ l₂ : Registry) (name : String) :
    get (l₁ ++ l₂) name = (get l₁ name).or (get l₂ name) := by
  induction l₁ with
  | nil => simp [get]
  | cons p rest ih =>
    by_cases hp : p.1 = name <;> simp [get, hp, ih]

/-- Characterization of lookup after an upsert: the registered name now
maps to the new definition and every other name is untouched. -/
theorem get_register (tools : Registry) (d : ToolDefinition) (name : String) :
    get (register tools d).1 name = if name = d.name then some d else get tools name := by
  unfold register
  by_cases hdup : containsName tools d.name = true
  · by_cases hn : name = d.name
    · subst hn
      simp [hdup, get_overwrite_self tools d hdup]
    · simp [hdup, hn, get_overwrite_other tools d name hn]
  · rw [Bool.not_eq_true] at hdup
    have hnone : get tools d.name = none := get_eq_none_of_not_contains tools d.name hdup
    simp only [hdup, Bool.false_eq_true, if_false]
    rw [get_append]
    by_cases hn : name = d.name
    · subst hn
      simp [hnone, get]
    · simp [hn, get, Ne.symm hn]

/-- The duplicate-name warning is emitted exactly when the name was
already registered. -/
theorem register_snd_eq_contains (tools : Registry) (d : ToolDefinition) :
    (register tools d).2 = containsName tools d.name := by
  unfold register
  by_cases h : containsName tools d.name = true <;> simp [h]

/-! ## Claim theorems -/

/-- C1: the claim says that on text containing no tool-call-shaped JSON
object, `extract_tool_calls` returns an empty sequence and never raises.
The code instead raises `re.error` on every input: its pattern uses the
`(?R)` recursion extension, which Python's `re` rejects at compile time.
Evaluated at plain prose with no brace at all, the call raises instead of
returning `[]`. -/
theorem extract_on_plain_text_raises :
    extract_tool_calls "hello, no braces here" =
      .error (PyErr.reError "unknown extension ?R at position 12") := by
  rfl

/-- C4: the claim says that on text containing a well-formed
`{"name":"X","args":{...}}` substring, `extract_tool_calls` returns one
matching `ToolCall` per occurrence.  On the spec's own Scenario A input
the code raises `re.error` (the `(?R)` pattern does not compile under
Python's `re`) and in particular does not return the expected
single-element list. -/
theorem extract_on_scenario_a_raises :
    extract_tool_calls scenarioA =
      .error (PyErr.reError "unknown extension ?R at position 12") ∧
    extract_tool_calls scenarioA ≠
      .ok [⟨"web_search", [("query", "rust ownership")]⟩] := by
  refine ⟨rfl, ?_⟩
  rw [extract_tool_calls_raises]
  exact fun h => Except.noConfusion h

/-- C5: `ToolRegistry.execute` on an unregistered name fails with the
unknown-tool error (`ValueError("Unknown tool: <name>")`), and when a
registered capability raises, `execute` propagates that error to its
caller rather than swallowing it or returning normally (the cause, with
the tool name in hand at the call site, is the spec's
`ToolExecutionError{name, cause}`). -/
theorem execute_unknown_and_propagation (tools : Registry) (call : ToolCall) :
    (get tools call.name = none →
      execute tools call = .error (.valueError ("Unknown tool: " ++ call.name))) ∧
    ∀ d e, get tools call.name = some d → d.function call.args = .error e →
      execute tools call = .error e := by
  constructor
  · intro h
    simp [execute, h]
  · intro d e hget hfun
    simp [execute, hget, hfun]

/-- Witness for C5: in the concrete registry `regBad`, executing the
unregistered `foo_tool` fails with the unknown-tool error, and executing
`bad`, whose capability raises `boom`, propagates that error. -/
theorem execute_unknown_and_propagation_witness :
    execute regBad ⟨"foo_tool", []⟩ = .error (.valueError ("Unknown tool: " ++ "foo_tool")) ∧
    execute regBad ⟨"bad", []⟩ = .error (.generic "boom") :=
  ⟨(execute_unknown_and_propagation regBad ⟨"foo_tool", []⟩).1 rfl,
   (execute_unknown_and_propagation regBad ⟨"bad", []⟩).2 badTool (.generic "boom") rfl rfl⟩

/-- C8: `register` is an unconditional upsert by name that never fails:
after registering, lookup at the name yields the definition; registering
the same name again emits the duplicate-name warning and keeps only the
latest definition, and both `get` and `execute` subsequently use the
latest definition. -/
theorem register_upsert_keeps_latest (tools : Registry) (d1 d2 : ToolDefinition)
    (hname : d1.name = d2.name) (args : List (String × String)) :
    get (register tools d1).1 d1.name = some d1 ∧
    (register (register tools d1).1 d2).2 = true ∧
    get (register (register tools d1).1 d2).1 d2.name = some d2 ∧
    execute (register (register tools d1).1 d2).1 ⟨d2.name, args⟩ = d2.function args := by
  have h1 : get (register tools d1).1 d1.name = some d1 := by
    rw [get_register]
    simp
  have h1' : get (register tools d1).1 d2.name = some d1 := hname ▸ h1
  have hcont : containsName (register tools d1).1 d2.name = true :=
    contains_of_get_some _ _ _ h1'
  have h2 : get (register (register tools d1).1 d2).1 d2.name = some d2 := by
    rw [get_register]
    simp
  refine ⟨h1, ?_, h2, ?_⟩
  · rw [register_snd_eq_contains, hcont]
  · simp [execute, h2]

/-- Witness for C8: registering `web_search` twice (as `toolA`, then
`toolA2`) warns on the second registration and leaves lookup and
execution using `toolA2`. -/
theorem register_upsert_keeps_latest_witness :
    get (register [] toolA).1 toolA.name = some toolA ∧
    (register (register [] toolA).1 toolA2).2 = true ∧
    get (register (register [] toolA).1 toolA2).1 toolA2.name = some toolA2 ∧
    execute (register (register [] toolA).1 toolA2).1 ⟨toolA2.name, []⟩ = toolA2.function [] :=
  register_upsert_keeps_latest [] toolA toolA2 rfl []

/-- C3 counterexample: the claim says a call to an unregistered tool
records the line `"Error: unknown tool foo_tool"`, and that a raising
capability is recorded as `"Tool <name> result: Error executing tool
<name>: <message>"`.  In the code the `if tool:` guard skips an
unregistered tool with NO recorded line, and a raising capability is
recorded as `"Error executing tool <name>: <message>"` without the
`"Tool <name> result: "` prefix. -/
theorem executing_unknown_tool_silently_skipped :
    processToolCalls regBad [⟨"foo_tool", []⟩] = [] ∧
    "Error: unknown tool foo_tool" ∉ processToolCalls regBad [⟨"foo_tool", []⟩] ∧
    processToolCalls regBad [⟨"bad", []⟩] = ["Error executing tool bad: boom"] ∧
    processToolCalls regBad [⟨"bad", []⟩] ≠
      ["Tool bad result: Error executing tool bad: boom"] := by
  refine ⟨rfl, ?_, rfl, ?_⟩ <;> decide

/-- C3 as amended: in extraction order, each call contributes its lines
and the remaining calls still run (no short-circuit): an unregistered
name contributes nothing (silently skipped), a successful capability
contributes `"Tool <name> result: <result>"`, and a raising capability
has its error caught and contributes
`"Error executing tool <name>: <message>"`. -/
theorem executing_tools_per_call (tools : Registry) (call : ToolCall)
    (rest : List ToolCall) :
    (get tools call.name = none →
      processToolCalls tools (call :: rest) = processToolCalls tools rest) ∧
    (∀ d result, get tools call.name = some d → d.function call.args = .ok result →
      processToolCalls tools (call :: rest) =
        ("Tool " ++ call.name ++ " result: " ++ result) :: processToolCalls tools rest) ∧
    ∀ d e, get tools call.name = some d → d.function call.args = .error e →
      processToolCalls tools (call :: rest) =
        ("Error executing tool " ++ call.name ++ ": " ++ e.str) :: processToolCalls tools rest := by
  refine ⟨fun h => ?_, fun d result hget hfun => ?_, fun d e hget hfun => ?_⟩
  · simp [processToolCalls, h]
  · simp [processToolCalls, execute, hget, hfun]
  · simp [processToolCalls, execute, hget, hfun]

/-- Witness for the amended C3: with `bad` raising and `good` registered
next, the error line is recorded without a prefix and the loop continues
with `good`. -/
theorem executing_tools_per_call_witness :
    processToolCalls regBad [⟨"bad", []⟩, ⟨"good", []⟩] =
      ("Error executing tool " ++ "bad" ++ ": " ++ (PyErr.generic "boom").str) ::
        processToolCalls regBad [⟨"good", []⟩] :=
  (executing_tools_per_call regBad ⟨"bad", []⟩ [⟨"good", []⟩]).2.2
    badTool (.generic "boom") rfl rfl

/-- C7: for a stored log and `limit > 0`, `get_conversation_history`
returns exactly the last `limit` entries (the Python slice
`history[-limit:]`), in original (oldest-first) order, at most `limit` of
them, all of them when fewer exist, and `limit = 0` returns the whole
log. -/
theorem recent_returns_last_limit (history : List ConversationEntry) (limit : Nat) :
    (0 < limit →
      get_conversation_history (.valid history) limit =
        history.drop (history.length - limit) ∧
      (get_conversation_history (.valid history) limit).length = min limit history.length ∧
      List.IsSuffix (get_conversation_history (.valid history) limit) history ∧
      (history.length ≤ limit →
        get_conversation_history (.valid history) limit = history)) ∧
    get_conversation_history (.valid history) 0 = history := by
  constructor
  · intro hlim
    have hdrop : get_conversation_history (.valid history) limit =
        history.drop (history.length - limit) := by
      simp [get_conversation_history, hlim]
    refine ⟨hdrop, ?_, ?_, ?_⟩
    · rw [hdrop, List.length_drop]
      omega
    · rw [hdrop]
      exact List.drop_suffix _ _
    · intro hle
      rw [hdrop, Nat.sub_eq_zero_of_le hle, List.drop_zero]
  · simp [get_conversation_history]

/-- Witness for C7: on the concrete three-entry history, `limit = 2`
returns the slice and `limit = 5` returns everything. -/
theorem recent_returns_last_limit_witness :
    get_conversation_history (.valid histWit) 2 = histWit.drop (histWit.length - 2) ∧
    get_conversation_history (.valid histWit) 5 = histWit :=
  ⟨((recent_returns_last_limit histWit 2).1 (by decide)).1,
   ((recent_returns_last_limit histWit 5).1 (by decide)).2.2.2 (by decide)⟩

/-- C10: `get_conversation_history` never raises: a missing file returns
`[]`, and a file that cannot be read or parsed has its exception caught
and also returns `[]` — indistinguishable from a genuinely empty
history. -/
theorem history_read_failure_empty (st : FileState) (limit : Nat)
    (h : st = .missing ∨ st = .unreadable ∨ st = .invalid) :
    get_conversation_history st limit = [] ∧
    get_conversation_history st limit = get_conversation_history .missing limit := by
  rcases h with rfl | rfl | rfl <;> exact ⟨rfl, rfl⟩

/-- Witness for C10: an unparsable history file reads as empty. -/
theorem history_read_failure_empty_witness :
    get_conversation_history .invalid 7 = [] ∧
    get_conversation_history .invalid 7 = get_conversation_history .missing 7 :=
  history_read_failure_empty .invalid 7 (Or.inr (Or.inr rfl))

/-- C2: the claim says the entry appended to the store holds the final,
tool-augmented answer, never an intermediate draft.  Exactly one entry is
appended per cycle — but `save_interaction(query, response)` runs before
tool extraction, so the stored answer is the pre-tool draft.  At the
concrete failing input the cycle stores the draft and returns a
different string (under `re`, extraction then raises, so the returned
final answer is the error diagnostic). -/
theorem persisted_entry_is_draft :
    (∀ tools store outcome query, ∃ draft,
      (process_query tools store outcome query).saved = [(query, draft)]) ∧
    (process_query regBad .missing (.resp 200 "" draftWit) "q").saved = [("q", draftWit)] ∧
    (process_query regBad .missing (.resp 200 "" draftWit) "q").answer =
      "Error: Error processing query: unknown extension ?R at position 12" ∧
    (process_query regBad .missing (.resp 200 "" draftWit) "q").answer ≠ draftWit := by
  refine ⟨?_, rfl, rfl, ?_⟩
  · intro tools store outcome query
    obtain ⟨s, hs⟩ := ollamaGenerate_isOk outcome
    exact ⟨s, by simp [process_query, hs, extract_tool_calls_raises]⟩
  · decide

/-- C6 counterexample: the claim says the generation client fails with
`GenerationError{status, detail}` on a non-success response.  The client
never fails: on HTTP 500 it returns normally with a diagnostic string. -/
theorem generate_returns_ok_on_http_error :
    ollamaGenerate (.resp 500 "boom" "") =
      .ok ("Error: Ollama API error: " ++ toString 500 ++ " - " ++ "boom") ∧
    (ollamaGenerate (.resp 500 "boom" "")).isOk = true := by
  exact ⟨by simp [ollamaGenerate], by simp [ollamaGenerate, Except.isOk, Except.toBool]⟩

/-- C6 as amended: on a non-success response or a transport error the
client itself converts the failure into a diagnostic string
(`"Error: ..."`) returned normally, the orchestrator persists that
diagnostic to the conversation store (so the failure is visible in
history), and the cycle completes without a hard failure. -/
theorem generate_diag_persisted (status : Nat) (text responseField : String)
    (tools : Registry) (store : FileState) (query : String) (h : status ≠ 200) :
    ollamaGenerate (.resp status text responseField) =
      .ok ("Error: Ollama API error: " ++ toString status ++ " - " ++ text) ∧
    (process_query tools store (.resp status text responseField) query).saved =
      [(query, "Error: Ollama API error: " ++ toString status ++ " - " ++ text)] ∧
    ∀ msg, ollamaGenerate (.transportError msg) =
      .ok ("Error: Error generating text: " ++ msg) := by
  have hgen : ollamaGenerate (.resp status text responseField) =
      .ok ("Error: Ollama API error: " ++ toString status ++ " - " ++ text) := by
    simp [ollamaGenerate, h]
  refine ⟨hgen, ?_, fun msg => rfl⟩
  simp [process_query, hgen, extract_tool_calls_raises]

/-- Witness for the amended C6: a 500 response yields a persisted
diagnostic entry. -/
theorem generate_diag_persisted_witness :
    ollamaGenerate (.resp 500 "x" "") =
      .ok ("Error: Ollama API error: " ++ toString 500 ++ " - " ++ "x") ∧
    (process_query regBad .missing (.resp 500 "x" "") "q").saved =
      [("q", "Error: Ollama API error: " ++ toString 500 ++ " - " ++ "x")] ∧
    ∀ msg, ollamaGenerate (.transportError msg) =
      .ok ("Error: Error generating text: " ++ msg) :=
  generate_diag_persisted 500 "x" "" regBad .missing "q" (by decide)

/-- C9 counterexample: the claim says two concurrent appends both succeed
with neither entry lost.  `save_interaction` takes no lock around its
load-then-write of the history file, so in the interleaving where both
calls read before either writes, the first writer's entry is lost: from
an empty store the final log is `[entry2]` and `entry1` is gone. -/
theorem concurrent_append_loses_entry :
    runAppends entry1 entry2 [] [.read1, .read2, .write1, .write2] = [entry2] ∧
    entry1 ∉ runAppends entry1 entry2 [] [.read1, .read2, .write1, .write2] := by
  refine ⟨rfl, ?_⟩
  decide

/-- C9 as amended: each write leaves the file a valid entry list, and
when the two appends are serialized (either order) both entries survive;
but in the interleavings where both reads precede the writes, exactly
the later writer's entry survives and the other is lost. -/
theorem concurrent_append_interleavings (init : List ConversationEntry)
    (e1 e2 : ConversationEntry) :
    runAppends e1 e2 init [.read1, .write1, .read2, .write2] = init ++ [e1, e2] ∧
    runAppends e1 e2 init [.read2, .write2, .read1, .write1] = init ++ [e2, e1] ∧
    runAppends e1 e2 init [.read1, .read2, .write1, .write2] = init ++ [e2] ∧
    runAppends e1 e2 init [.read1, .read2, .write2, .write1] = init ++ [e1] := by
  refine ⟨?_, ?_, ?_, ?_⟩ <;> simp [runAppends, stepOp]

end Torisai
